import Mathlib

/-!
Verification development for the Michaelhouse leave system
(`leave-system/processors/leave_parser.py`, `leave-system/processors/leave_processor.py`,
`leave-system/tools/placeholder_tools.py`, `leave-system/models/leave_models.py`).

Timestamps are modelled as a day count since 1970-01-01 (a Thursday) together
with an hour and minute; Python `datetime` values flowing through the code under
scrutiny always have zero seconds and microseconds, so this projection is exact
for every comparison and arithmetic operation the code performs.
-/

/-- Timestamp: `day` counts days since 1970-01-01; `hour`/`minute` are the time of day.
Mirrors the Python `datetime` values used by the leave system (seconds are always zero there). -/
structure DateTime where
  day : Int
  hour : Nat
  minute : Nat
deriving DecidableEq, Repr

/-- Day count of the civil date `y-m-d` since 1970-01-01 (Gregorian, proleptic).
Standard days-from-civil computation, used to write date constants the way the
source writes `datetime(2025, 1, 18)`. -/
def daysFromCivil (y m d : Nat) : Int :=
  let y' := if m ≤ 2 then y - 1 else y
  let era := y' / 400
  let yoe := y' - era * 400
  let mp := (m + 9) % 12
  let doy := (153 * mp + 2) / 5 + d - 1
  let doe := yoe * 365 + yoe / 4 - yoe / 100 + doy
  (((era * 146097 + doe : Nat) : Int)) - 719468

/-- Build a `DateTime` from a civil date plus hour and minute. -/
def mkDT (y m d h mi : Nat) : DateTime :=
  ⟨daysFromCivil y m d, h, mi⟩

/-- Inverse of `daysFromCivil`: civil `(year, month, day)` of a day count.
Used only to render dates in approval messages (Python `strftime`). -/
def civilFromDays (day : Int) : Nat × Nat × Nat :=
  let z := (day + 719468).toNat
  let era := z / 146097
  let doe := z % 146097
  let yoe := (doe - doe / 1460 + doe / 36524 - doe / 146096) / 365
  let y := yoe + era * 400
  let doy := doe - (365 * yoe + yoe / 4 - yoe / 100)
  let mp := (5 * doy + 2) / 153
  let d := doy - (153 * mp + 2) / 5 + 1
  let m := if mp < 10 then mp + 3 else mp - 9
  (if m ≤ 2 then y + 1 else y, m, d)

/-- Python `datetime.weekday()`: Monday = 0 … Sunday = 6.
1970-01-01 was a Thursday (= 3). -/
def weekday (day : Int) : Int :=
  (day + 3) % 7

/-- Python `datetime` comparison `a < b` (lexicographic on day, hour, minute). -/
def dtLT (a b : DateTime) : Bool :=
  decide (a.day < b.day ∨ (a.day = b.day ∧
    (a.hour < b.hour ∨ (a.hour = b.hour ∧ a.minute < b.minute))))

/-- Python `datetime` comparison `a <= b`. -/
def dtLE (a b : DateTime) : Bool :=
  !(dtLT b a)

/-- Python `timedelta(days = n)` addition. -/
def addDays (a : DateTime) (n : Int) : DateTime :=
  ⟨a.day + n, a.hour, a.minute⟩

/-- Python `dt.replace(hour = h, minute = mi)`. -/
def replaceTime (a : DateTime) (h mi : Nat) : DateTime :=
  ⟨a.day, h, mi⟩

example : mkDT 1970 1 1 0 0 = ⟨0, 0, 0⟩ := by decide
example : weekday (mkDT 2025 1 18 0 0).day = 5 := by decide
example : weekday (mkDT 2025 1 1 0 0).day = 2 := by decide
example : civilFromDays (mkDT 2025 2 28 0 0).day = (2025, 2, 28) := by decide
example : dtLT (mkDT 2025 2 10 17 0) (mkDT 2025 2 15 9 0) = true := by decide

lemma dtLT_eq_true_iff (a b : DateTime) :
    dtLT a b = true ↔ (a.day < b.day ∨ (a.day = b.day ∧
      (a.hour < b.hour ∨ (a.hour = b.hour ∧ a.minute < b.minute)))) := by
  simp [dtLT]

lemma dtLT_irrefl (a : DateTime) : dtLT a a = false := by
  simp [dtLT]

lemma dtLT_of_le_of_lt {a b c : DateTime} (h₁ : dtLE a b = true) (h₂ : dtLT b c = true) :
    dtLT a c = true := by
  simp only [dtLE, Bool.not_eq_true', dtLT, decide_eq_false_iff_not, decide_eq_true_eq] at *
  rcases h₂ with h | ⟨hd, h⟩ <;> push_neg at h₁ <;> omega

/-! ## Text helpers (Python `str.lower`, substring containment `in`) -/

/-- ASCII lowercase of one character (Python `str.lower` on the ASCII texts used here). -/
def lowerChar (c : Char) : Char :=
  if 'A' ≤ c ∧ c ≤ 'Z' then Char.ofNat (c.toNat + 32) else c

/-- Lowercase a character list. -/
def lcList (t : List Char) : List Char :=
  t.map lowerChar

/-- Lowercase the characters of a string, as a character list. -/
def lcData (s : String) : List Char :=
  lcList s.data

/-- Python substring containment `ndl in hay`. -/
def containsSub (hay ndl : List Char) : Bool :=
  decide (ndl <:+: hay)

example : containsSub (("day leave, maybe overnight").toList) (("overnight").toList) = true := by
  decide
example : lcData ("Friday Supper") = ("friday supper").toList := by decide

/-! ## Leave categories (`models/leave_models.py`, class `LeaveType`) -/

/-- The `LeaveType` enumeration. -/
inductive LeaveType where
  | overnight
  | fridaySupper
  | dayLeave
  | special
deriving DecidableEq, Repr

/-- The `.value` string of each `LeaveType` member. -/
def LeaveType.value : LeaveType → String
  | .overnight => "Overnight"
  | .fridaySupper => "Friday Supper"
  | .dayLeave => "Day Leave"
  | .special => "Special"

/-! ## Category determination (`leave_parser.py`, `_determine_leave_type`)
The input is the lowercased message text (`parse_request` lowercases before calling). -/

/-- The `OVERNIGHT_INDICATORS` list. -/
def OVERNIGHT_INDICATORS : List (List Char) :=
  [("overnight").toList, ("sleep over").toList, ("stay over").toList,
   ("saturday night").toList, ("weekend leave").toList]

/-- The `SUPPER_INDICATORS` list. -/
def SUPPER_INDICATORS : List (List Char) :=
  [("friday supper").toList, ("supper").toList, ("friday evening").toList,
   ("friday night out").toList]

/-- The `DAY_LEAVE_INDICATORS` list. -/
def DAY_LEAVE_INDICATORS : List (List Char) :=
  [("day leave").toList, ("day trip").toList, ("saturday out").toList,
   ("sunday out").toList, ("day out").toList]

/-- The `SPECIAL_INDICATORS` list. -/
def SPECIAL_INDICATORS : List (List Char) :=
  [("special leave").toList, ("special permission").toList, ("emergency").toList,
   ("urgent").toList]

/-- Python `any(indicator in text for indicator in indicators)`. -/
def hasIndicator (t : List Char) (ks : List (List Char)) : Bool :=
  ks.any (fun k => containsSub t k)

/-- Embeds `_determine_leave_type(text)`, applied to the lowercased text. -/
def determineLeaveType (t : List Char) : LeaveType :=
  if hasIndicator t SPECIAL_INDICATORS then .special
  else if hasIndicator t OVERNIGHT_INDICATORS then .overnight
  else if hasIndicator t SUPPER_INDICATORS then .fridaySupper
  else if hasIndicator t DAY_LEAVE_INDICATORS then .dayLeave
  else if containsSub t (("saturday").toList) || containsSub t (("sunday").toList)
       || containsSub t (("weekend").toList) then .dayLeave
  else .overnight

example : determineLeaveType (("day leave, maybe overnight").toList) = .overnight := by decide
example : determineLeaveType (("please let him out").toList) = .overnight := by decide
example : determineLeaveType (("home this weekend").toList) = .dayLeave := by decide

/-! ## Absolute date parsing (`leave_parser.py`, `_parse_date_string`)
Mirrors `datetime.strptime` tried against the fixed format list
`['%d/%m/%Y', '%d-%m-%Y', '%d/%m/%y', '%d-%m-%y', '%d %B %Y', '%d %b %Y']`:
first successful parse wins, calendar validity included. -/

/-- Digit test. -/
def isDigitCh (c : Char) : Bool :=
  '0' ≤ c && c ≤ '9'

/-- Letter test (ASCII). -/
def isAlphaCh (c : Char) : Bool :=
  ('a' ≤ c && c ≤ 'z') || ('A' ≤ c && c ≤ 'Z')

/-- Numeric value of a digit run. -/
def digitsVal (ds : List Char) : Nat :=
  ds.foldl (fun a c => a * 10 + (c.toNat - ('0').toNat)) 0

/-- Leap-year test (Gregorian). -/
def isLeap (y : Nat) : Bool :=
  y % 4 = 0 && (y % 100 ≠ 0 || y % 400 = 0)

/-- Days in a month, as validated by `datetime` construction inside `strptime`. -/
def daysInMonth (y m : Nat) : Nat :=
  if m = 2 then (if isLeap y then 29 else 28)
  else if m = 4 ∨ m = 6 ∨ m = 9 ∨ m = 11 then 30
  else 31

/-- A valid civil date per `datetime(y, m, d)`. -/
def validCivil (y m d : Nat) : Bool :=
  1 ≤ m && m ≤ 12 && 1 ≤ d && d ≤ daysInMonth y m

/-- Parse `day sep month sep year` with a 4- or 2-digit year (`%d/%m/%Y` family).
A 2-digit year `yy` maps to `2000 + yy` when `yy ≤ 68`, else `1900 + yy`,
as `strptime` does for `%y`. -/
def parseNumericDate (sep : Char) (yearLen : Nat) (t : List Char) : Option DateTime :=
  let (ds, r₁) := t.span isDigitCh
  if 1 ≤ ds.length ∧ ds.length ≤ 2 then
    match r₁ with
    | c₁ :: r₂ =>
      if c₁ = sep then
        let (ms, r₃) := r₂.span isDigitCh
        if 1 ≤ ms.length ∧ ms.length ≤ 2 then
          match r₃ with
          | c₂ :: r₄ =>
            if c₂ = sep then
              let (ys, r₅) := r₄.span isDigitCh
              if ys.length = yearLen ∧ r₅ = [] then
                let y := if yearLen = 2 then
                    (if digitsVal ys ≤ 68 then 2000 + digitsVal ys else 1900 + digitsVal ys)
                  else digitsVal ys
                if validCivil y (digitsVal ms) (digitsVal ds) then
                  some (mkDT y (digitsVal ms) (digitsVal ds) 0 0)
                else none
              else none
            else none
          | [] => none
        else none
      else none
    | [] => none
  else none

/-- Full month names, lowercased (for `%B`). -/
def monthNamesFull : List (List Char) :=
  [("january").toList, ("february").toList, ("march").toList, ("april").toList,
   ("may").toList, ("june").toList, ("july").toList, ("august").toList,
   ("september").toList, ("october").toList, ("november").toList, ("december").toList]

/-- Abbreviated month names, lowercased (for `%b`). -/
def monthNamesAbbr : List (List Char) :=
  [("jan").toList, ("feb").toList, ("mar").toList, ("apr").toList, ("may").toList,
   ("jun").toList, ("jul").toList, ("aug").toList, ("sep").toList, ("oct").toList,
   ("nov").toList, ("dec").toList]

/-- Index (1-based month) of a lowercased word in a month-name table. -/
def monthIndex (names : List (List Char)) (w : List Char) : Option Nat :=
  match names.findIdx? (fun n => n = w) with
  | some i => some (i + 1)
  | none => none

/-- Parse `day month-name year` (`%d %B %Y` / `%d %b %Y`; month names case-insensitive,
whitespace in the format matches one or more spaces). -/
def parseMonthNameDate (names : List (List Char)) (t : List Char) : Option DateTime :=
  let (ds, r₁) := t.span isDigitCh
  if 1 ≤ ds.length ∧ ds.length ≤ 2 then
    let (sp₁, r₂) := r₁.span (fun c => c = ' ')
    if 1 ≤ sp₁.length then
      let (w, r₃) := r₂.span isAlphaCh
      match monthIndex names (lcList w) with
      | some m =>
        let (sp₂, r₄) := r₃.span (fun c => c = ' ')
        if 1 ≤ sp₂.length then
          let (ys, r₅) := r₄.span isDigitCh
          if ys.length = 4 ∧ r₅ = [] then
            if validCivil (digitsVal ys) m (digitsVal ds) then
              some (mkDT (digitsVal ys) m (digitsVal ds) 0 0)
            else none
          else none
        else none
      | none => none
    else none
  else none

/-- Embeds `_parse_date_string(date_str)`: the fixed-priority format list, first success wins. -/
def parseDateString (t : List Char) : Option DateTime :=
  match parseNumericDate '/' 4 t with
  | some d => some d
  | none =>
  match parseNumericDate '-' 4 t with
  | some d => some d
  | none =>
  match parseNumericDate '/' 2 t with
  | some d => some d
  | none =>
  match parseNumericDate '-' 2 t with
  | some d => some d
  | none =>
  match parseMonthNameDate monthNamesFull t with
  | some d => some d
  | none => parseMonthNameDate monthNamesAbbr t

example : parseDateString (("15/02/2025").toList) = some (mkDT 2025 2 15 0 0) := by decide
example : parseDateString (("10/02/2025").toList) = some (mkDT 2025 2 10 0 0) := by decide
example : parseDateString (("15 February 2025").toList) = some (mkDT 2025 2 15 0 0) := by decide
example : parseDateString (("99/99/2025").toList) = none := by decide

/-! ## Relative date resolution (`leave_parser.py`, `_parse_relative_date`)
The source computes `today = datetime.now().replace(hour=0, minute=0, second=0,
microsecond=0)` — an implicit clock read.  The embedding makes that read explicit:
`now` is the clock value at the moment of the call. -/

/-- The `self.weekdays` table, in insertion order (monday = 0 … sunday = 6). -/
def weekdaysTable : List (List Char × Int) :=
  [(("monday").toList, 0), (("tuesday").toList, 1), (("wednesday").toList, 2),
   (("thursday").toList, 3), (("friday").toList, 4), (("saturday").toList, 5),
   (("sunday").toList, 6)]

/-- Embeds `_parse_relative_date(date_str)`; `now` is the value `datetime.now()` returns
inside the function. -/
def parseRelativeDate (t : List Char) (now : DateTime) : Option DateTime :=
  let s := lcList t
  let today : DateTime := ⟨now.day, 0, 0⟩
  if containsSub s (("today").toList) then some today
  else if containsSub s (("tomorrow").toList) then some (addDays today 1)
  else
    match weekdaysTable.find? (fun p => containsSub s p.1) with
    | some p =>
      let current := weekday today.day
      let d₀ := p.2 - current
      let d₁ :=
        if containsSub s (("next").toList) then d₀ + 7
        else if containsSub s (("this").toList) || d₀ < 0 then
          (if d₀ ≤ 0 then d₀ + 7 else d₀)
        else d₀
      some (addDays today d₁)
    | none => parseDateString t

example : parseRelativeDate (("today").toList) (mkDT 2025 1 16 9 30) =
    some (mkDT 2025 1 16 0 0) := by decide
example : parseRelativeDate (("tomorrow").toList) (mkDT 2025 1 16 9 30) =
    some (mkDT 2025 1 17 0 0) := by decide
example : parseRelativeDate (("this saturday").toList) (mkDT 2025 1 16 9 30) =
    some (mkDT 2025 1 18 0 0) := by decide

/-! ## Window expansion (`leave_parser.py`, `_infer_date_range` and `_apply_leave_times`) -/

/-- Embeds `_infer_date_range(base_date, leave_type)`: expand a single resolved date into a
start/end window.  The Overnight template applies only when the base date is a Saturday,
and the FridaySupper template only when it is a Friday; everything else falls through to
the default full-day template. -/
def inferDateRange (base : DateTime) (lt : LeaveType) : DateTime × DateTime :=
  if lt = .overnight ∧ weekday base.day = 5 then
    (replaceTime base 14 0, replaceTime (addDays base 1) 18 50)
  else if lt = .fridaySupper ∧ weekday base.day = 4 then
    (replaceTime base 17 0, replaceTime base 21 0)
  else if lt = .dayLeave then
    (replaceTime base 9 0, replaceTime base 17 0)
  else
    (replaceTime base 9 0, replaceTime base 17 0)

/-- Embeds `_apply_leave_times(start_date, end_date, leave_type)`: impose the per-category
time-of-day template on two independently parsed endpoints (Special passes the
endpoints through unchanged). -/
def applyLeaveTimes (startDate endDate : Option DateTime) (lt : LeaveType) :
    Option DateTime × Option DateTime :=
  match startDate, endDate with
  | some s, some e =>
    match lt with
    | .overnight => (some (replaceTime s 14 0), some (replaceTime e 18 50))
    | .fridaySupper => (some (replaceTime s 17 0), some (replaceTime e 21 0))
    | .dayLeave => (some (replaceTime s 9 0), some (replaceTime e 17 0))
    | .special => (some s, some e)
  | s, e => (s, e)

example : inferDateRange (mkDT 2025 1 18 0 0) .overnight =
    (mkDT 2025 1 18 14 0, mkDT 2025 1 19 18 50) := by decide
example : inferDateRange (mkDT 2025 1 17 0 0) .overnight =
    (mkDT 2025 1 17 9 0, mkDT 2025 1 17 17 0) := by decide

/-! ## Data model (`models/leave_models.py`) and the PolicyStore data
(`tools/placeholder_tools.py`).  The placeholder tools close over in-process mock
dictionaries; the embedding parameterizes the same tool logic by a `Store` whose
concrete `mockStore` instance below holds exactly the source's mock data, so that
theorems can quantify over stored balances and restrictions. -/

/-- A student record as returned by `tool_student_parent_linkage`. -/
structure StudentRecord where
  adminNumber : String
  firstName : String
  lastName : String
  house : String
  block : String
  overnightBalance : Int
  fridaySupperBalance : Int
deriving DecidableEq, Repr

/-- Embeds `StudentInfo` (`models/leave_models.py`). -/
structure StudentInfo where
  adminNumber : String
  firstName : String
  lastName : String
  house : String
  block : String
  overnightBalance : Int
  fridaySupperBalance : Int
deriving DecidableEq, Repr

/-- Embeds `StudentInfo.full_name`. -/
def StudentInfo.fullName (s : StudentInfo) : String :=
  s.firstName ++ " " ++ s.lastName

/-- Embeds `ParentInfo` (`models/leave_models.py`). -/
structure ParentInfo where
  authId : String
  phone : Option String
  email : Option String
  channel : String
deriving DecidableEq, Repr

/-- A restriction period (`tool_restriction_check`'s mock records). -/
structure Restriction where
  start : DateTime
  stop : DateTime
  reason : String
deriving DecidableEq, Repr

/-- Embeds `LeaveRequest` (`models/leave_models.py`), with the optional dates the parser yields. -/
structure LeaveRequest where
  student : StudentInfo
  parent : ParentInfo
  leaveType : LeaveType
  startDate : Option DateTime
  endDate : Option DateTime
deriving DecidableEq, Repr

/-- The stored data the placeholder tools consult (their mock dictionaries). -/
structure Store where
  parentsByPhone : String → Option String
  parentsByEmail : String → Option String
  studentsOf : String → List StudentRecord
  balances : String → Option (Int × Int)
  restrictions : String → List Restriction

/-- The mock data hard-coded in `placeholder_tools.py`. -/
def mockStore : Store where
  parentsByPhone := fun p =>
    if p = "27603174174" then some ("PARENT_001")
    else if p = "27821234567" then some ("PARENT_002")
    else none
  parentsByEmail := fun e =>
    if e = "john.smith@example.com" then some ("PARENT_001")
    else if e = "jane.doe@example.com" then some ("PARENT_002")
    else none
  studentsOf := fun pid =>
    if pid = "PARENT_001" then
      [⟨"12345", "James", "Smith", "Finningley", "C", 3, 3⟩]
    else if pid = "PARENT_002" then
      [⟨"67890", "Michael", "Doe", "Shepstone", "E", 2, 3⟩]
    else []
  balances := fun a =>
    if a = "12345" then some (3, 3)
    else if a = "67890" then some (2, 3)
    else none
  restrictions := fun a =>
    if a = "67890" then
      [⟨mkDT 2025 2 1 0 0, mkDT 2025 2 28 0 0, "Academic concerns"⟩]
    else []

/-! ## Tools (`tools/placeholder_tools.py`) -/

/-- Embeds `tool_parent_phone_check`. -/
def toolParentPhoneCheck (store : Store) (phone : String) : Option String :=
  store.parentsByPhone phone

/-- Embeds `tool_parent_email_check` (looks up the lowercased address). -/
def toolParentEmailCheck (store : Store) (email : String) : Option String :=
  store.parentsByEmail (String.mk (lcData email))

/-- Embeds `tool_student_parent_linkage`: first student of the parent whose admin number equals
the identifier or whose lowercased first/last name occurs in the lowercased identifier. -/
def toolStudentParentLinkage (store : Store) (parentAuthId ident : String) :
    Option StudentRecord :=
  (store.studentsOf parentAuthId).find? (fun st =>
    st.adminNumber = ident
    || containsSub (lcData ident) (lcData st.firstName)
    || containsSub (lcData ident) (lcData st.lastName))

/-- Embeds `tool_leave_balance_check`. -/
def toolLeaveBalanceCheck (store : Store) (adminNumber leaveTypeName : String) : Int :=
  let bal := (store.balances adminNumber).getD (0, 0)
  if lcData leaveTypeName = ("overnight").toList then bal.1
  else if lcData leaveTypeName = ("supper").toList
       ∨ lcData leaveTypeName = ("fridaysupper").toList
       ∨ lcData leaveTypeName = ("friday_supper").toList then bal.2
  else 0

/-- Result of `tool_date_validity_check`. -/
structure ValidityResult where
  isValid : Bool
  reason : String
deriving DecidableEq, Repr

/-- The closed-weekend table of `tool_date_validity_check` (blocks E and D only). -/
def closedWeekendsFor (block : String) : List (DateTime × DateTime) :=
  if block = "E" ∨ block = "D" then
    [(mkDT 2025 1 18 0 0, mkDT 2025 1 19 0 0),
     (mkDT 2025 2 22 0 0, mkDT 2025 2 23 0 0)]
  else []

/-- The closed-weekend rejection reason string. -/
def closedWeekendReason (block : String) : String :=
  "Falls on closed weekend for " ++ block
    ++ " Block (First weekend of term or weekend after half term)"

/-- Embeds `tool_date_validity_check`: closed-weekend overlap first (inclusive bounds), then the
term-boundary check against 2025-01-15 … 2025-03-28. -/
def toolDateValidityCheck (block : String) (startDate endDate : DateTime) : ValidityResult :=
  if (closedWeekendsFor block).any
      (fun p => !(dtLT endDate p.1 || dtLT p.2 startDate)) then
    ⟨false, closedWeekendReason block⟩
  else if dtLT startDate (mkDT 2025 1 15 0 0) || dtLT (mkDT 2025 3 28 0 0) endDate then
    ⟨false, "Dates fall outside of term dates"⟩
  else ⟨true, ""⟩

/-- Embeds `tool_restriction_check`: true when some stored restriction overlaps the window
under the inclusive-bounds test `not (end < r.start or start > r.end)`. -/
def toolRestrictionCheck (store : Store) (adminNumber : String)
    (startDate endDate : DateTime) : Bool :=
  (store.restrictions adminNumber).any
    (fun r => !(dtLT endDate r.start || dtLT r.stop startDate))

example : toolRestrictionCheck mockStore ("67890") (mkDT 2025 2 28 0 0) (mkDT 2025 3 1 18 50)
    = true := by decide
example : toolRestrictionCheck mockStore ("12345") (mkDT 2025 2 28 0 0) (mkDT 2025 3 1 18 50)
    = false := by decide

/-! ## Message formatting (`leave_processor.py`) -/

/-- Weekday name for `strftime('%A')`. -/
def weekdayName (w : Nat) : String :=
  match w with
  | 0 => "Monday"
  | 1 => "Tuesday"
  | 2 => "Wednesday"
  | 3 => "Thursday"
  | 4 => "Friday"
  | 5 => "Saturday"
  | _ => "Sunday"

/-- Month name for `strftime('%B')`. -/
def monthNameStr (m : Nat) : String :=
  match m with
  | 1 => "January"
  | 2 => "February"
  | 3 => "March"
  | 4 => "April"
  | 5 => "May"
  | 6 => "June"
  | 7 => "July"
  | 8 => "August"
  | 9 => "September"
  | 10 => "October"
  | 11 => "November"
  | _ => "December"

/-- Zero-pad to two digits (`%d`, `%H`, `%M`). -/
def pad2 (n : Nat) : String :=
  if n < 10 then "0" ++ toString n else toString n

/-- Zero-pad to four digits (`%Y`). -/
def pad4 (n : Nat) : String :=
  if n < 10 then "000" ++ toString n
  else if n < 100 then "00" ++ toString n
  else if n < 1000 then "0" ++ toString n
  else toString n

/-- Embeds `strftime('%A %d %B %Y at %H:%M')`, used in the approval message. -/
def fmtDateTime (dt : DateTime) : String :=
  let c := civilFromDays dt.day
  weekdayName (weekday dt.day).toNat ++ " " ++ pad2 c.2.2 ++ " " ++ monthNameStr c.2.1
    ++ " " ++ pad4 c.1 ++ " at " ++ pad2 dt.hour ++ ":" ++ pad2 dt.minute

example : fmtDateTime (mkDT 2025 2 8 14 0) = "Saturday 08 February 2025 at 14:00" := by decide

/-! ## The eligibility engine (`leave_processor.py`)

The engine's returned dict is modelled as `Decision` (`status`, optional `reason`,
optional `trigger_reason`, `message`).  Each PolicyStore call site additionally emits
an `Effect`, so that theorems can speak about which checks were consulted and what
the register update was asked to do.  `Option` is the crash monad: `none` marks the
one spot where the Python would raise (`balance_type` referenced before assignment in
`_approve_leave`), so totality theorems prove that spot unreachable. -/

/-- Decision status strings of the parent flow. -/
inductive DecisionStatus where
  | approved
  | rejected
  | specialPending
  | error
deriving DecidableEq, Repr

/-- The engine's returned dict. -/
structure Decision where
  status : DecisionStatus
  reason : Option String
  triggerReason : Option String
  message : String
deriving DecidableEq, Repr

/-- One PolicyStore interaction of the engine. -/
inductive Effect where
  | dateValidity
  | restrictionCheck
  | balanceCheck (leaveTypeName : String)
  | leaveUpdate (leaveTypeName : String)
deriving DecidableEq, Repr

/-- Embeds `tool_leave_update` for the approval path: the placeholder always succeeds; the
recorded effect carries the leave-type string, which is what the store's own
accounting keys the balance deduction on (`'Overnight'`/`'Friday Supper'` deduct,
`'Day Leave'` does not). -/
def toolLeaveUpdate (leaveTypeName : String) : Bool × List Effect :=
  (true, [Effect.leaveUpdate leaveTypeName])

/-- The `_reject_leave` message. -/
def rejectMessage (fullName reason : String) : String :=
  "Thank you for your request.\n\nUnfortunately, I'm unable to approve the exeat for "
    ++ fullName ++ " on this occasion because " ++ reason
    ++ ".\n\nIf you require this leave to be granted, please contact " ++ fullName
    ++ "'s Housemaster directly to request a Special Leave."

/-- Embeds `_reject_leave`. -/
def rejectLeave (req : LeaveRequest) (reason : String) : Decision :=
  ⟨.rejected, some reason, none, rejectMessage req.student.fullName reason⟩

/-- The `_route_to_special_leave` parent-facing message (the housemaster email is a
print side effect and is not part of the returned dict). -/
def specialMessage (fullName house triggerReason : String) : String :=
  "Thank you for your request.\n\nThis leave request for " ++ fullName
    ++ " requires special approval as " ++ String.mk (lcData triggerReason)
    ++ ".\n\nI have forwarded your request to the " ++ house
    ++ " Housemaster for manual review. You will be notified once a decision has been made."
    ++ "\n\nThank you for your patience."

/-- Embeds `_route_to_special_leave`. -/
def routeToSpecialLeave (req : LeaveRequest) (triggerReason : String) : Decision :=
  ⟨.specialPending, none, some triggerReason,
    specialMessage req.student.fullName req.student.house triggerReason⟩

/-- Embeds `_format_approval_message`. -/
def formatApprovalMessage (req : LeaveRequest) (s e : DateTime)
    (balanceLine : Option (Int × String)) : String :=
  let base :=
    "Thank you for submitting your request.\n\nI'm pleased to confirm that the "
      ++ "exeat request for " ++ req.student.fullName ++ " for " ++ req.leaveType.value
      ++ " leave has been approved.\n\nDates: " ++ fmtDateTime s ++ " to " ++ fmtDateTime e
  match balanceLine with
  | some (nb, bt) => base ++ "\n\nRemaining " ++ bt ++ " leave balance: " ++ toString nb
  | none => base

/-- Embeds `_approve_leave`; `none` models the Python `UnboundLocalError` on `balance_type`
when `deduct_balance` is true but the leave type is neither Overnight nor FridaySupper
(unreachable from the engine, as proved below). -/
def approveLeave (req : LeaveRequest) (s e : DateTime) (deductBalance : Bool) :
    Option (Decision × List Effect) :=
  let upd := toolLeaveUpdate req.leaveType.value
  if upd.1 = false then
    some (⟨.error, none, none,
      "An error occurred while processing the leave. Please try again or contact the "
        ++ "Housemaster."⟩, upd.2)
  else if deductBalance then
    match req.leaveType with
    | .overnight =>
      some (⟨.approved, none, none,
        formatApprovalMessage req s e
          (some (req.student.overnightBalance - 1, "overnight"))⟩, upd.2)
    | .fridaySupper =>
      some (⟨.approved, none, none,
        formatApprovalMessage req s e
          (some (req.student.fridaySupperBalance - 1, "Friday Supper"))⟩, upd.2)
    | _ => none
  else
    some (⟨.approved, none, none, formatApprovalMessage req s e none⟩, upd.2)

/-- The insufficient-overnight-balance rejection reason. -/
def insufficientOvernightReason (student : StudentInfo) : String :=
  student.fullName ++ " has insufficient overnight leave balance (0 remaining)"

/-- The insufficient-Friday-Supper-balance rejection reason. -/
def insufficientSupperReason (student : StudentInfo) : String :=
  student.fullName ++ " has insufficient Friday Supper leave balance (0 remaining)"

/-- The restriction rejection reason. -/
def restrictedReason (student : StudentInfo) : String :=
  student.fullName ++ " is currently restricted from weekend leave during this period"

/-- Embeds `_process_leave_eligibility`: the ordered checks of FR3–FR5. -/
def processLeaveEligibility (store : Store) (req : LeaveRequest) :
    Option (Decision × List Effect) :=
  match req.startDate, req.endDate with
  | some s, some e =>
    let dv := toolDateValidityCheck req.student.block s e
    if dv.isValid = false then
      if containsSub (lcData dv.reason) (("closed weekend").toList) then
        some (routeToSpecialLeave req dv.reason, [Effect.dateValidity])
      else
        some (rejectLeave req dv.reason, [Effect.dateValidity])
    else if req.leaveType = .overnight ∧ ¬ weekday s.day = 5 then
      some (routeToSpecialLeave req
        ("Overnight leave requested for a night other than Saturday to Sunday"),
        [Effect.dateValidity])
    else if req.leaveType = .dayLeave then
      (approveLeave req s e false).map (fun p => (p.1, Effect.dateValidity :: p.2))
    else
      let restricted :=
        if req.leaveType ∈ [LeaveType.overnight, LeaveType.fridaySupper, LeaveType.dayLeave]
        then some (toolRestrictionCheck store req.student.adminNumber s e)
        else none
      let effs₁ := match restricted with
        | some _ => [Effect.dateValidity, Effect.restrictionCheck]
        | none => [Effect.dateValidity]
      if restricted = some true then
        some (rejectLeave req (restrictedReason req.student), effs₁)
      else if req.leaveType = .overnight then
        let bal := toolLeaveBalanceCheck store req.student.adminNumber ("Overnight")
        let effs₂ := effs₁ ++ [Effect.balanceCheck ("Overnight")]
        if bal < 1 then
          some (rejectLeave req (insufficientOvernightReason req.student), effs₂)
        else (approveLeave req s e true).map (fun p => (p.1, effs₂ ++ p.2))
      else if req.leaveType = .fridaySupper then
        let bal := toolLeaveBalanceCheck store req.student.adminNumber ("Supper")
        let effs₂ := effs₁ ++ [Effect.balanceCheck ("Supper")]
        if bal < 1 then
          some (rejectLeave req (insufficientSupperReason req.student), effs₂)
        else (approveLeave req s e true).map (fun p => (p.1, effs₂ ++ p.2))
      else if req.leaveType = .special then
        some (routeToSpecialLeave req ("Special leave explicitly requested"), effs₁)
      else (approveLeave req s e true).map (fun p => (p.1, effs₁ ++ p.2))
  | _, _ =>
    some (⟨.error, some ("missing_dates"), none,
      "I couldn't determine the dates for this leave request. Please specify the start "
        ++ "and end dates clearly."⟩, [])

/-! ## The engine entry point (`leave_processor.py`, `process_parent_request`)

The parser's output dict is modelled as `ParsedData`; the entry point consumes it
exactly as `process_parent_request` consumes `parser.parse_request(message_text)`. -/

/-- The fields of `parse_request`'s result that the engine reads. -/
structure ParsedData where
  studentIdentifier : Option String
  leaveType : LeaveType
  startDate : Option DateTime
  endDate : Option DateTime
deriving DecidableEq, Repr

/-- Embeds `_authenticate_parent`: `some` is the `authenticated = True` dict. -/
def authenticateParent (store : Store) (identifier channel : String) :
    Option ParentInfo :=
  let parentAuthId :=
    if channel = "whatsapp" then toolParentPhoneCheck store identifier
    else if channel = "email" then toolParentEmailCheck store identifier
    else none
  parentAuthId.map (fun authId =>
    ⟨authId,
     if channel = "whatsapp" then some identifier else none,
     if channel = "email" then some identifier else none,
     channel⟩)

/-- Embeds `process_parent_request`: authentication, linkage, then the eligibility checks. -/
def processParentRequest (store : Store) (senderIdentifier channel : String)
    (parsed : ParsedData) : Option (Decision × List Effect) :=
  match authenticateParent store senderIdentifier channel with
  | none =>
    some (⟨.rejected, some ("authentication_failed"), none,
      "I couldn't verify your identity. Please ensure you're using the registered "
        ++ "contact details on file."⟩, [])
  | some parentInfo =>
    match parsed.studentIdentifier with
    | none =>
      some (⟨.error, some ("parse_failed"), none,
        "I couldn't identify which student this request is for. Please include the "
          ++ "student's name or admin number."⟩, [])
    | some ident =>
      match toolStudentParentLinkage store parentInfo.authId ident with
      | none =>
        some (⟨.rejected, some ("student_linkage_failed"), none,
          "I couldn't find a student matching '" ++ ident
            ++ "' linked to your account. Please check the name or admin number and "
            ++ "try again."⟩, [])
      | some rec =>
        let student : StudentInfo :=
          ⟨rec.adminNumber, rec.firstName, rec.lastName, rec.house, rec.block,
           rec.overnightBalance, rec.fridaySupperBalance⟩
        let req : LeaveRequest :=
          ⟨student, parentInfo, parsed.leaveType, parsed.startDate, parsed.endDate⟩
        processLeaveEligibility store req

example :
    (processParentRequest mockStore ("27603174174") ("whatsapp")
      ⟨some ("James"), .dayLeave, some (mkDT 2025 2 1 9 0), some (mkDT 2025 2 1 17 0)⟩).map
      (fun p => p.1.status) = some .approved := by decide
example :
    (processParentRequest mockStore ("27000000000") ("whatsapp")
      ⟨some ("James"), .dayLeave, some (mkDT 2025 2 1 9 0), some (mkDT 2025 2 1 17 0)⟩).map
      (fun p => p.1.status) = some .rejected := by decide

/-! ## The production balance commit (`tools/database_tools.py`)

`api_production.py` wires `DatabaseTools` into the engine (`processor.tools = tools`),
so the durable balance state lives in the `leave_balances` table.  For one subject and
one category (Overnight or FridaySupper), in the current term:
- `DatabaseTools.tool_leave_balance_check` runs a `SELECT` of the remaining balance in
  its own transaction and returns it;
- the approval path of `DatabaseTools.tool_leave_update` inserts the register row and
  runs `UPDATE leave_balances SET <column> = <column> - 1` — an unconditional
  decrement with no at-least-one guard — committing both in one transaction that is
  separate from the balance read.

An engine approval attempt therefore touches the store twice: first the read
(`_process_leave_eligibility` calling `tool_leave_balance_check`), then — only if the
observed value was ≥ 1 — the register-insert-plus-unconditional-decrement commit
(`_approve_leave` calling `tool_leave_update`).  The two steps are modelled below,
together with an interleaving semantics for two concurrent attempts against the same
subject's balance. -/

/-- The balance `SELECT` of `DatabaseTools.tool_leave_balance_check`: returns the
stored value, no write. -/
def dbBalanceRead (balance : Int) : Int :=
  balance

/-- The balance effect of `DatabaseTools.tool_leave_update` on the approval path for
an Overnight/FridaySupper entry (in term): `UPDATE ... SET column = column - 1`,
unconditionally. -/
def dbLeaveUpdateDeduct (balance : Int) : Int :=
  balance - 1

/-- The store-interaction phases of one engine approval attempt: not yet run; balance
read with the observed value; finished (approved or rejected for balance). -/
inductive AttemptPhase where
  | start
  | checked (observed : Int)
  | done (approved : Bool)
deriving DecidableEq, Repr

/-- One store interaction of a single approval attempt: the first step is the balance
read; the second either rejects (observed < 1, per `_process_leave_eligibility`) with
no write, or commits `tool_leave_update`'s unconditional decrement.  Each step is one
database transaction; nothing links the two. -/
def attemptStep (p : AttemptPhase) (balance : Int) : AttemptPhase × Int :=
  match p with
  | .start => (.checked (dbBalanceRead balance), balance)
  | .checked v =>
    if v < 1 then (.done false, balance)
    else (.done true, dbLeaveUpdateDeduct balance)
  | .done a => (.done a, balance)

/-- Two concurrent approval attempts for the same subject sharing one stored balance. -/
structure RaceState where
  first : AttemptPhase
  second : AttemptPhase
  balance : Int
deriving DecidableEq, Repr

/-- Run an interleaving of the two attempts: each schedule entry picks which attempt
performs its next store transaction (`false` = first, `true` = second). -/
def runSchedule : List Bool → RaceState → RaceState
  | [], st => st
  | c :: rest, st =>
    if c then
      let step := attemptStep st.second st.balance
      runSchedule rest ⟨st.first, step.1, step.2⟩
    else
      let step := attemptStep st.first st.balance
      runSchedule rest ⟨step.1, st.second, step.2⟩

example : runSchedule [false, false] ⟨.start, .start, 3⟩ = ⟨.done true, .start, 2⟩ := by
  decide

/-! ## Helper lemmas -/


lemma containsSub_eq_true_iff (hay ndl : List Char) :
    containsSub hay ndl = true ↔ ndl <:+: hay := by
  simp [containsSub]

lemma lcData_append (s t : String) : lcData (s ++ t) = lcData s ++ lcData t := by
  simp [lcData, lcList, String.data_append]

lemma append_fixed_suffix_ne {s t : List Char} (hs : ¬ s <:+ t) (ht : ¬ t <:+ s) :
    ∀ a b : List Char, a ++ s ≠ b ++ t := by
  intro a b h
  have h₁ : s <:+ b ++ t := h ▸ ⟨a, rfl⟩
  have h₂ : t <:+ b ++ t := ⟨b, rfl⟩
  rcases List.suffix_or_suffix_of_suffix h₁ h₂ with hc | hc
  · exact hs hc
  · exact ht hc

lemma str_append_ne_empty (s t : String) (h : s.data ≠ []) : s ++ t ≠ "" := by
  intro he
  have hd := congrArg String.data he
  rw [String.data_append] at hd
  exact h (List.append_eq_nil.mp hd).1

/-! ## Claim C4 -/

/-- C4 counterexample: the claim says Overnight expansion yields base-at-14:00 to
next-day-18:50 for every base date (any weekday), but `_infer_date_range` applies that
template only for a Saturday base; for Friday 2025-01-17 it falls through to the default
full-day template 09:00–17:00 on the same day. -/
theorem c4_counterexample :
    weekday (mkDT 2025 1 17 0 0).day ≠ 5 ∧
    inferDateRange (mkDT 2025 1 17 0 0) .overnight =
      (mkDT 2025 1 17 9 0, mkDT 2025 1 17 17 0) ∧
    inferDateRange (mkDT 2025 1 17 0 0) .overnight ≠
      (mkDT 2025 1 17 14 0, mkDT 2025 1 18 18 50) := by
  decide

/-- C4 (amended): single-date Overnight expansion applies the 14:00 → next-day 18:50
template only when the base date is a Saturday, falling through to the default
09:00–17:00 same-day window otherwise; on the explicit-range path
`_apply_leave_times` imposes the Overnight times (start 14:00, end 18:50 on the two
parsed dates) unconditionally, never taking the time of day from the input. -/
theorem c4_overnight_window_template (base s e : DateTime) :
    inferDateRange base .overnight =
      (if weekday base.day = 5 then
        ((⟨base.day, 14, 0⟩ : DateTime), (⟨base.day + 1, 18, 50⟩ : DateTime))
       else ((⟨base.day, 9, 0⟩ : DateTime), (⟨base.day, 17, 0⟩ : DateTime))) ∧
    applyLeaveTimes (some s) (some e) .overnight =
      (some (⟨s.day, 14, 0⟩ : DateTime), some (⟨e.day, 18, 50⟩ : DateTime)) := by
  constructor
  · by_cases h : weekday base.day = 5 <;>
      simp [inferDateRange, replaceTime, addDays, h]
  · simp [applyLeaveTimes, replaceTime]

/-- C4 witness: the template characterization evaluated at Saturday 2025-01-18 and
at two explicit endpoints. -/
theorem c4_overnight_window_template_witness :
    inferDateRange (mkDT 2025 1 18 0 0) .overnight =
      (if weekday (mkDT 2025 1 18 0 0).day = 5 then
        ((⟨(mkDT 2025 1 18 0 0).day, 14, 0⟩ : DateTime),
         (⟨(mkDT 2025 1 18 0 0).day + 1, 18, 50⟩ : DateTime))
       else ((⟨(mkDT 2025 1 18 0 0).day, 9, 0⟩ : DateTime),
         (⟨(mkDT 2025 1 18 0 0).day, 17, 0⟩ : DateTime))) ∧
    applyLeaveTimes (some (mkDT 2025 2 14 11 11)) (some (mkDT 2025 2 15 22 22)) .overnight =
      (some (⟨(mkDT 2025 2 14 11 11).day, 14, 0⟩ : DateTime),
       some (⟨(mkDT 2025 2 15 22 22).day, 18, 50⟩ : DateTime)) :=
  ⟨(c4_overnight_window_template (mkDT 2025 1 18 0 0) (mkDT 2025 2 14 11 11)
      (mkDT 2025 2 15 22 22)).1,
   (c4_overnight_window_template (mkDT 2025 1 18 0 0) (mkDT 2025 2 14 11 11)
      (mkDT 2025 2 15 22 22)).2⟩

/-! ## Claim C10 -/

/-- C10: category determination follows the fixed priority order special → overnight →
Friday supper → day leave → weekend/saturday/sunday mention (DayLeave) → default
Overnight, returning the first match; in particular text containing both an overnight
and a day-leave indicator yields Overnight, and text matching no rule yields Overnight. -/
theorem c10_category_priority (t : List Char) :
    (hasIndicator t SPECIAL_INDICATORS = true → determineLeaveType t = .special) ∧
    (hasIndicator t SPECIAL_INDICATORS = false → hasIndicator t OVERNIGHT_INDICATORS = true →
      determineLeaveType t = .overnight) ∧
    (hasIndicator t SPECIAL_INDICATORS = false → hasIndicator t OVERNIGHT_INDICATORS = false →
      hasIndicator t SUPPER_INDICATORS = true → determineLeaveType t = .fridaySupper) ∧
    (hasIndicator t SPECIAL_INDICATORS = false → hasIndicator t OVERNIGHT_INDICATORS = false →
      hasIndicator t SUPPER_INDICATORS = false → hasIndicator t DAY_LEAVE_INDICATORS = true →
      determineLeaveType t = .dayLeave) ∧
    (hasIndicator t SPECIAL_INDICATORS = false → hasIndicator t OVERNIGHT_INDICATORS = false →
      hasIndicator t SUPPER_INDICATORS = false → hasIndicator t DAY_LEAVE_INDICATORS = false →
      (containsSub t (("saturday").toList) || containsSub t (("sunday").toList)
        || containsSub t (("weekend").toList)) = true →
      determineLeaveType t = .dayLeave) ∧
    (hasIndicator t SPECIAL_INDICATORS = false → hasIndicator t OVERNIGHT_INDICATORS = false →
      hasIndicator t SUPPER_INDICATORS = false → hasIndicator t DAY_LEAVE_INDICATORS = false →
      (containsSub t (("saturday").toList) || containsSub t (("sunday").toList)
        || containsSub t (("weekend").toList)) = false →
      determineLeaveType t = .overnight) ∧
    (hasIndicator t SPECIAL_INDICATORS = false → hasIndicator t OVERNIGHT_INDICATORS = true →
      hasIndicator t DAY_LEAVE_INDICATORS = true → determineLeaveType t = .overnight) := by
  refine ⟨?_, ?_, ?_, ?_, ?_, ?_, ?_⟩ <;> intros <;> simp_all [determineLeaveType]

/-- C10 witness: "day leave, maybe overnight" contains both an overnight and a
day-leave indicator and is classified Overnight. -/
theorem c10_category_priority_witness :
    determineLeaveType (("day leave, maybe overnight").toList) = .overnight :=
  (c10_category_priority (("day leave, maybe overnight").toList)).2.2.2.2.2.2
    (by decide) (by decide) (by decide)

/-! ## Claim C9 -/

/-- C9 counterexample: the claim says resolution is relative to an explicitly injected
reference timestamp, never an implicit clock read.  `_parse_relative_date` reads
`datetime.now()` internally (modelled by the `now` argument, the clock value at call
time); the same text "today" resolves differently when the clock reads 2025-01-18
versus 2025-01-19, so the resolved date is not a function of the function's explicit
inputs alone. -/
theorem c9_counterexample :
    parseRelativeDate (("today").toList) (mkDT 2025 1 18 9 0) ≠
      parseRelativeDate (("today").toList) (mkDT 2025 1 19 9 0) := by
  decide

/-- C9 (amended): resolution of "today"/"tomorrow"/weekday names is relative to the
clock value `datetime.now()` read inside the parser, not to an injected parameter;
it is deterministic as a function of the text together with the clock's calendar day
at call time ("today" resolves to that day at midnight, "tomorrow" to the following
day at midnight). -/
theorem c9_clock_relative (t : List Char) (n₁ n₂ : DateTime) (h : n₁.day = n₂.day) :
    parseRelativeDate t n₁ = parseRelativeDate t n₂ ∧
    (∀ now : DateTime,
      parseRelativeDate (("today").toList) now = some (⟨now.day, 0, 0⟩ : DateTime) ∧
      parseRelativeDate (("tomorrow").toList) now =
        some (⟨now.day + 1, 0, 0⟩ : DateTime)) := by
  constructor
  · simp only [parseRelativeDate, h]
  · intro now
    have h₁ : containsSub (lcList (("today").toList)) (("today").toList) = true := by decide
    have h₂ : containsSub (lcList (("tomorrow").toList)) (("today").toList) = false := by
      decide
    have h₃ : containsSub (lcList (("tomorrow").toList)) (("tomorrow").toList) = true := by
      decide
    constructor
    · simp +decide [parseRelativeDate, h₁]
    · simp +decide [parseRelativeDate, h₂, h₃, addDays]

/-- C9 witness: two calls with the same text and the same clock day (different times of
day) resolve identically. -/
theorem c9_clock_relative_witness :
    parseRelativeDate (("saturday").toList) (mkDT 2025 1 16 8 0) =
      parseRelativeDate (("saturday").toList) (mkDT 2025 1 16 21 30) :=
  (c9_clock_relative (("saturday").toList) (mkDT 2025 1 16 8 0) (mkDT 2025 1 16 21 30)
    (by decide)).1

/-! ## Claim C5 -/

/-- C5 counterexample: the claim says that with a "this" qualifier, if the reference day
is itself the named weekday the expression resolves to the reference day (day 0).
2025-01-18 is a Saturday, yet "this saturday" resolves to 2025-01-25, seven days later. -/
theorem c5_counterexample :
    weekday (mkDT 2025 1 18 10 30).day = 5 ∧
    parseRelativeDate (("this saturday").toList) (mkDT 2025 1 18 10 30) =
      some (mkDT 2025 1 25 0 0) ∧
    (mkDT 2025 1 25 0 0 : DateTime) ≠ mkDT 2025 1 18 0 0 := by
  decide

/-- C5 (amended): for a weekday-name expression (no "today"/"tomorrow" keyword, first
matching table entry `(name, num)`): with no qualifier the resolution is the next
occurrence of that weekday on/after the reference day, the reference day itself counting
as day 0; a "next" qualifier adds 7 days to the signed weekday offset (so for a named
day earlier in the week it yields the nearest future occurrence, not occurrence + 7);
a "this" qualifier adds 7 days whenever the signed offset is ≤ 0 — in particular, when
the reference day is itself the named weekday, "this <day>" resolves 7 days later, not
to the reference day. -/
theorem c5_weekday_resolution (t : List Char) (now : DateTime) (name : List Char)
    (num : Int)
    (h₀ : containsSub (lcList t) (("today").toList) = false)
    (h₁ : containsSub (lcList t) (("tomorrow").toList) = false)
    (h₂ : weekdaysTable.find? (fun p => containsSub (lcList t) p.1) = some (name, num)) :
    (containsSub (lcList t) (("next").toList) = false →
      containsSub (lcList t) (("this").toList) = false →
      ∃ k : Int, parseRelativeDate t now = some (⟨now.day + k, 0, 0⟩ : DateTime) ∧
        0 ≤ k ∧ k < 7 ∧ weekday (now.day + k) = num) ∧
    (containsSub (lcList t) (("next").toList) = true →
      parseRelativeDate t now =
        some (⟨now.day + (num - weekday now.day) + 7, 0, 0⟩ : DateTime)) ∧
    (containsSub (lcList t) (("next").toList) = false →
      containsSub (lcList t) (("this").toList) = true →
      parseRelativeDate t now =
        some (⟨now.day + (if num - weekday now.day ≤ 0 then num - weekday now.day + 7
          else num - weekday now.day), 0, 0⟩ : DateTime) ∧
      (weekday now.day = num →
        parseRelativeDate t now = some (⟨now.day + 7, 0, 0⟩ : DateTime))) := by
  have hm := List.mem_of_find?_eq_some h₂
  have hnum : 0 ≤ num ∧ num < 7 := by
    simp [weekdaysTable] at hm
    rcases hm with ⟨_, h⟩ | ⟨_, h⟩ | ⟨_, h⟩ | ⟨_, h⟩ | ⟨_, h⟩ | ⟨_, h⟩ | ⟨_, h⟩ <;> omega
  have hw : 0 ≤ weekday now.day ∧ weekday now.day < 7 := by
    unfold weekday; omega
  have g₀ : containsSub (lcList t) (['t', 'o', 'd', 'a', 'y']) = false := h₀
  have g₁ : containsSub (lcList t) (['t', 'o', 'm', 'o', 'r', 'r', 'o', 'w']) = false := h₁
  refine ⟨?_, ?_, ?_⟩
  · intro hn ht
    have gn : containsSub (lcList t) (['n', 'e', 'x', 't']) = false := hn
    have gt : containsSub (lcList t) (['t', 'h', 'i', 's']) = false := ht
    refine ⟨(if num - weekday now.day < 0 then num - weekday now.day + 7
      else num - weekday now.day), ?_, ?_, ?_, ?_⟩
    · simp [parseRelativeDate, g₀, g₁, h₂, gn, gt, addDays, DateTime.mk.injEq]
      split_ifs <;> omega
    · split_ifs <;> omega
    · split_ifs <;> omega
    · unfold weekday
      split_ifs with hd <;> unfold weekday at hd <;> omega
  · intro hn
    have gn : containsSub (lcList t) (['n', 'e', 'x', 't']) = true := hn
    simp [parseRelativeDate, g₀, g₁, h₂, gn, addDays, DateTime.mk.injEq]
    omega
  · intro hn ht
    have gn : containsSub (lcList t) (['n', 'e', 'x', 't']) = false := hn
    have gt : containsSub (lcList t) (['t', 'h', 'i', 's']) = true := ht
    constructor
    · simp [parseRelativeDate, g₀, g₁, h₂, gn, gt, addDays, DateTime.mk.injEq]
    · intro heq
      simp [parseRelativeDate, g₀, g₁, h₂, gn, gt, addDays, heq, DateTime.mk.injEq]

/-- C5 witness: "next friday" with the clock on Saturday 2025-01-18 (weekday offset
4 − 5 = −1) resolves to 2025-01-24, the nearest future Friday. -/
theorem c5_weekday_resolution_witness :
    parseRelativeDate (("next friday").toList) (mkDT 2025 1 18 12 0) =
      some (mkDT 2025 1 24 0 0) := by
  rw [(c5_weekday_resolution (("next friday").toList) (mkDT 2025 1 18 12 0)
    (("friday").toList) 4 (by decide) (by decide) (by decide)).2.1 (by decide)]
  decide

/-! ## Claim C6 -/

/-- C6 counterexample: the claim says every parsed window satisfies start < end.  The
explicit-range path parses both endpoints independently with no ordering check, so the
reversed range "15/02/2025 to 10/02/2025" (both endpoints accepted by
`_parse_date_string`) passes through `_apply_leave_times` to a window whose start
(15 Feb 09:00) is after its end (10 Feb 17:00). -/
theorem c6_counterexample :
    parseDateString (("15/02/2025").toList) = some (mkDT 2025 2 15 0 0) ∧
    parseDateString (("10/02/2025").toList) = some (mkDT 2025 2 10 0 0) ∧
    applyLeaveTimes (some (mkDT 2025 2 15 0 0)) (some (mkDT 2025 2 10 0 0)) .dayLeave =
      (some (mkDT 2025 2 15 9 0), some (mkDT 2025 2 10 17 0)) ∧
    dtLT (mkDT 2025 2 15 9 0) (mkDT 2025 2 10 17 0) = false ∧
    dtLT (mkDT 2025 2 10 17 0) (mkDT 2025 2 15 9 0) = true := by
  decide

/-- C6 (amended): windows produced from a single resolved date (`_infer_date_range`)
always satisfy start < end; windows produced from an explicit two-endpoint range
(`_apply_leave_times` over two midnight dates from `_parse_date_string`) satisfy
start < end exactly when the first parsed date is before the second, or equal to it
with a non-Special category (Special leaves both endpoints at midnight, and a reversed
range yields start > end). -/
theorem c6_window_invariant :
    (∀ (base : DateTime) (lt : LeaveType),
      dtLT (inferDateRange base lt).1 (inferDateRange base lt).2 = true) ∧
    (∀ (s e : DateTime) (lt : LeaveType),
      s.hour = 0 → s.minute = 0 → e.hour = 0 → e.minute = 0 →
      ∃ s' e', applyLeaveTimes (some s) (some e) lt = (some s', some e') ∧
        (dtLT s' e' = true ↔ (s.day < e.day ∨ (s.day = e.day ∧ lt ≠ .special)))) := by
  constructor
  · intro base lt
    unfold inferDateRange
    split_ifs <;> simp [dtLT, replaceTime, addDays]
  · intro s e lt hsh hsm heh hem
    cases lt <;> refine ⟨_, _, rfl, ?_⟩ <;>
      simp [dtLT, replaceTime, hsh, hsm, heh, hem]

/-- C6 witness: the range-path characterization applied to the midnight endpoints
10 Feb 2025 and 15 Feb 2025 with category DayLeave. -/
theorem c6_window_invariant_witness :
    ∃ s' e', applyLeaveTimes (some (mkDT 2025 2 10 0 0)) (some (mkDT 2025 2 15 0 0))
        .dayLeave = (some s', some e') ∧
      (dtLT s' e' = true ↔ ((mkDT 2025 2 10 0 0).day < (mkDT 2025 2 15 0 0).day ∨
        ((mkDT 2025 2 10 0 0).day = (mkDT 2025 2 15 0 0).day ∧
          LeaveType.dayLeave ≠ LeaveType.special))) :=
  c6_window_invariant.2 (mkDT 2025 2 10 0 0) (mkDT 2025 2 15 0 0) .dayLeave
    rfl rfl rfl rfl

/-! ## Claim C1 -/

/-- C1: any authenticated, linked parent request parsed as DayLeave with present, valid
dates is approved regardless of the stored balances (the store — hence every balance
value, including zero — is universally quantified), with no restriction check and no
balance check consulted, and with the register update keyed "Day Leave", for which the
store performs no balance deduction. -/
theorem c1_dayleave_always_approved
    (store : Store) (sender channel : String) (parsed : ParsedData)
    (parentInfo : ParentInfo) (ident : String) (rec : StudentRecord)
    (s e : DateTime)
    (hauth : authenticateParent store sender channel = some parentInfo)
    (hid : parsed.studentIdentifier = some ident)
    (hlink : toolStudentParentLinkage store parentInfo.authId ident = some rec)
    (hlt : parsed.leaveType = .dayLeave)
    (hs : parsed.startDate = some s) (he : parsed.endDate = some e)
    (hv : (toolDateValidityCheck rec.block s e).isValid = true) :
    ∃ d effs, processParentRequest store sender channel parsed = some (d, effs) ∧
      d.status = .approved ∧
      effs = [Effect.dateValidity, Effect.leaveUpdate (("Day Leave"))] ∧
      Effect.restrictionCheck ∉ effs ∧
      (∀ n : String, Effect.balanceCheck n ∉ effs) := by
  simp only [processParentRequest, hauth, hid, hlink]
  simp only [processLeaveEligibility, hs, he, hlt, hv, approveLeave, toolLeaveUpdate,
    LeaveType.value]
  simp only [Bool.true_eq_false, if_false, reduceCtorEq, false_and, if_true,
    Option.map_some']
  refine ⟨_, _, rfl, ?_, ?_, ?_, ?_⟩
  · rfl
  · rfl
  · decide
  · intro n
    simp

/-- A store whose only student has both balances at zero, for the C1 witness. -/
def c1Store : Store where
  parentsByPhone := fun p => if p = "27603174174" then some ("PARENT_001") else none
  parentsByEmail := fun _ => none
  studentsOf := fun pid =>
    if pid = "PARENT_001" then [⟨"12345", "James", "Smith", "Finningley", "C", 0, 0⟩]
    else []
  balances := fun a => if a = "12345" then some (0, 0) else none
  restrictions := fun _ => []

/-- C1 witness: a DayLeave request against zero stored balances is approved with no
restriction or balance check. -/
theorem c1_dayleave_always_approved_witness :
    ∃ d effs, processParentRequest c1Store ("27603174174") ("whatsapp")
        ⟨some ("James"), .dayLeave, some (mkDT 2025 2 1 9 0), some (mkDT 2025 2 1 17 0)⟩
        = some (d, effs) ∧
      d.status = .approved ∧
      effs = [Effect.dateValidity, Effect.leaveUpdate (("Day Leave"))] ∧
      Effect.restrictionCheck ∉ effs ∧
      (∀ n : String, Effect.balanceCheck n ∉ effs) :=
  c1_dayleave_always_approved c1Store ("27603174174") ("whatsapp")
    ⟨some ("James"), .dayLeave, some (mkDT 2025 2 1 9 0), some (mkDT 2025 2 1 17 0)⟩
    ⟨"PARENT_001", some ("27603174174"), none, "whatsapp"⟩ ("James")
    ⟨"12345", "James", "Smith", "Finningley", "C", 0, 0⟩
    (mkDT 2025 2 1 9 0) (mkDT 2025 2 1 17 0)
    (by decide) rfl (by decide) rfl rfl rfl (by decide)

/-! ## Claim C2 -/

lemma closedWeekendReason_contains (block : String) :
    containsSub (lcData (closedWeekendReason block)) (("closed weekend").toList) = true := by
  rw [containsSub_eq_true_iff]
  unfold closedWeekendReason
  rw [lcData_append, lcData_append]
  have h : (("closed weekend").toList) <:+: lcData ("Falls on closed weekend for ") := by
    decide
  exact (h.trans (List.prefix_append _ _).isInfix).trans (List.prefix_append _ _).isInfix

lemma outside_term_ne_insufficientOvernight (st : StudentInfo) :
    ("Dates fall outside of term dates" : String) ≠ insufficientOvernightReason st := by
  intro h
  have hd := congrArg String.data h
  unfold insufficientOvernightReason at hd
  rw [String.data_append] at hd
  exact @append_fixed_suffix_ne (("Dates fall outside of term dates").data)
    ((" has insufficient overnight leave balance (0 remaining)").data)
    (by decide) (by decide) [] (st.fullName).data (by simpa using hd)

/-- The request used in the C2 counterexample: Overnight, Wednesday 2025-01-01,
which is before the term start, so the date validity check fails with the
outside-term reason. -/
def c2CexRequest : LeaveRequest :=
  ⟨⟨"12345", "James", "Smith", "Finningley", "C", 3, 3⟩,
   ⟨"PARENT_001", some ("27603174174"), none, "whatsapp"⟩,
   .overnight, some (mkDT 2025 1 1 14 0), some (mkDT 2025 1 2 18 50)⟩

/-- C2 counterexample: the claim says every Overnight request whose start is not a
Saturday yields special_pending; this Overnight request starting Wednesday 2025-01-01
(outside the term) is instead rejected with the outside-term reason. -/
theorem c2_counterexample :
    c2CexRequest.leaveType = .overnight ∧
    weekday (mkDT 2025 1 1 14 0).day ≠ 5 ∧
    ((processLeaveEligibility mockStore c2CexRequest).map (fun p => p.1.status))
      = some .rejected ∧
    ((processLeaveEligibility mockStore c2CexRequest).map (fun p => p.1.status))
      ≠ some .specialPending := by
  decide

/-- C2 (amended): for an Overnight request with both dates present: if the date
validity check passes and the start date is not a Saturday, the decision is
special_pending with the non-Saturday trigger; and unconditionally a decision of
approved, or of rejected with the insufficient-overnight-balance reason, implies the
start date is a Saturday.  (A non-Saturday Overnight request failing date validity
with a non-closed-weekend reason is rejected with that reason instead of going to
special_pending.) -/
theorem c2_overnight_saturday_gate (store : Store) (req : LeaveRequest) (s e : DateTime)
    (hs : req.startDate = some s) (he : req.endDate = some e)
    (hlt : req.leaveType = .overnight) :
    ((toolDateValidityCheck req.student.block s e).isValid = true →
      ¬ weekday s.day = 5 →
      processLeaveEligibility store req =
        some (routeToSpecialLeave req
          ("Overnight leave requested for a night other than Saturday to Sunday"),
          [Effect.dateValidity])) ∧
    (∀ d effs, processLeaveEligibility store req = some (d, effs) →
      d.status = .approved ∨ d.reason = some (insufficientOvernightReason req.student) →
      weekday s.day = 5) := by
  constructor
  · intro hv hw
    simp [processLeaveEligibility, hs, he, hlt, hv, hw]
  · intro d effs hrun hcond
    by_cases hsat : weekday s.day = 5
    · exact hsat
    exfalso
    simp only [processLeaveEligibility, hs, he, hlt] at hrun
    by_cases hcw : ((closedWeekendsFor req.student.block).any
        (fun p => !(dtLT e p.1 || dtLT p.2 s))) = true
    · have hdvEq : toolDateValidityCheck req.student.block s e =
          ⟨false, closedWeekendReason req.student.block⟩ := by
        unfold toolDateValidityCheck
        rw [if_pos hcw]
      rw [hdvEq] at hrun
      simp only [closedWeekendReason_contains, Bool.true_eq_false, if_true, if_false,
        reduceIte, Option.some.injEq, Prod.mk.injEq] at hrun
      rcases hrun with ⟨hd, -⟩
      rcases hcond with hc | hc
      · rw [← hd] at hc
        simp [routeToSpecialLeave] at hc
      · rw [← hd] at hc
        simp [routeToSpecialLeave] at hc
    · by_cases hterm : (dtLT s (mkDT 2025 1 15 0 0) || dtLT (mkDT 2025 3 28 0 0) e) = true
      · have hdvEq : toolDateValidityCheck req.student.block s e =
            ⟨false, "Dates fall outside of term dates"⟩ := by
          unfold toolDateValidityCheck
          rw [if_neg hcw, if_pos hterm]
        rw [hdvEq] at hrun
        rw [show containsSub (lcData ("Dates fall outside of term dates"))
            (("closed weekend").toList) = false from by decide] at hrun
        simp only [Bool.true_eq_false, Bool.false_eq_true, if_true, if_false, reduceIte,
          Option.some.injEq, Prod.mk.injEq] at hrun
        rcases hrun with ⟨hd, -⟩
        rcases hcond with hc | hc
        · rw [← hd] at hc
          simp [rejectLeave] at hc
        · rw [← hd] at hc
          simp [rejectLeave] at hc
          exact outside_term_ne_insufficientOvernight req.student hc
      · have hdvEq : toolDateValidityCheck req.student.block s e = ⟨true, ""⟩ := by
          unfold toolDateValidityCheck
          rw [if_neg hcw, if_neg hterm]
        rw [hdvEq] at hrun
        simp only [hsat, Bool.true_eq_false, Bool.false_eq_true, if_true, if_false,
          reduceIte, and_false, and_true, not_false_iff, not_false_eq_true, if_neg,
          Option.some.injEq, Prod.mk.injEq] at hrun
        rcases hrun with ⟨hd, -⟩
        rcases hcond with hc | hc
        · rw [← hd] at hc
          simp [routeToSpecialLeave] at hc
        · rw [← hd] at hc
          simp [routeToSpecialLeave] at hc

/-- The request used in the C2 witness: Overnight, Wednesday 2025-02-05, inside the
term with no closed weekend for block C. -/
def c2PendingRequest : LeaveRequest :=
  ⟨⟨"12345", "James", "Smith", "Finningley", "C", 3, 3⟩,
   ⟨"PARENT_001", some ("27603174174"), none, "whatsapp"⟩,
   .overnight, some (mkDT 2025 2 5 14 0), some (mkDT 2025 2 6 18 50)⟩

/-- C2 witness: a valid-date non-Saturday Overnight request goes to special_pending
with the non-Saturday trigger. -/
theorem c2_overnight_saturday_gate_witness :
    processLeaveEligibility mockStore c2PendingRequest =
      some (routeToSpecialLeave c2PendingRequest
        ("Overnight leave requested for a night other than Saturday to Sunday"),
        [Effect.dateValidity]) :=
  (c2_overnight_saturday_gate mockStore c2PendingRequest
    (mkDT 2025 2 5 14 0) (mkDT 2025 2 6 18 50) rfl rfl rfl).1 (by decide) (by decide)

/-! ## Claim C7 -/

/-- C7: the restriction overlap test is inclusive at both endpoints — it succeeds
exactly when NOT (window.end < restriction.start OR window.start > restriction.end) —
so a weekend-leave request whose window starts exactly when a stored restriction ends
is rejected as restricted by the engine. -/
theorem c7_restriction_inclusive (store : Store) (req : LeaveRequest) (s e : DateTime)
    (r : Restriction)
    (hs : req.startDate = some s) (he : req.endDate = some e)
    (hlt : req.leaveType = .overnight ∨ req.leaveType = .fridaySupper)
    (hsat : req.leaveType = .overnight → weekday s.day = 5)
    (hv : (toolDateValidityCheck req.student.block s e).isValid = true)
    (hr : r ∈ store.restrictions req.student.adminNumber)
    (hwf : dtLE r.start r.stop = true)
    (hend : r.stop = s)
    (hse : dtLE s e = true) :
    (∀ s' e', toolRestrictionCheck store req.student.adminNumber s' e' = true ↔
      ∃ r' ∈ store.restrictions req.student.adminNumber,
        dtLT e' r'.start = false ∧ dtLT r'.stop s' = false) ∧
    processLeaveEligibility store req =
      some (rejectLeave req (restrictedReason req.student),
        [Effect.dateValidity, Effect.restrictionCheck]) := by
  have hiff : ∀ s' e', toolRestrictionCheck store req.student.adminNumber s' e' = true ↔
      ∃ r' ∈ store.restrictions req.student.adminNumber,
        dtLT e' r'.start = false ∧ dtLT r'.stop s' = false := by
    intro s' e'
    rw [toolRestrictionCheck, List.any_eq_true]
    constructor
    · rintro ⟨r', hm, hp⟩
      exact ⟨r', hm, by simpa using hp⟩
    · rintro ⟨r', hm, h1, h2⟩
      exact ⟨r', hm, by simp [h1, h2]⟩
  refine ⟨hiff, ?_⟩
  have h1 : dtLT r.stop s = false := by
    rw [hend]
    exact dtLT_irrefl s
  have h2 : dtLT e r.start = false := by
    by_contra hne
    have hlt' : dtLT e r.start = true := by
      simpa using hne
    have h3 : dtLT s r.start = true := dtLT_of_le_of_lt hse hlt'
    have h4 : dtLE r.start s = true := by
      rw [← hend]
      exact hwf
    rw [dtLE, h3] at h4
    simp at h4
  have hrc : toolRestrictionCheck store req.student.adminNumber s e = true :=
    (hiff s e).mpr ⟨r, hr, h2, h1⟩
  rcases hlt with hlt' | hlt'
  · simp [processLeaveEligibility, hs, he, hlt', hv, hsat hlt', hrc]
  · simp [processLeaveEligibility, hs, he, hlt', hv, hrc]

/-- A store holding a restriction that ends exactly at the witness window's start. -/
def c7Store : Store where
  parentsByPhone := fun _ => none
  parentsByEmail := fun _ => none
  studentsOf := fun _ => []
  balances := fun a => if a = "12345" then some (3, 3) else none
  restrictions := fun a =>
    if a = "12345" then [⟨mkDT 2025 2 21 0 0, mkDT 2025 2 28 17 0, "Team detention"⟩]
    else []

/-- The Friday-supper request whose window starts exactly when the restriction ends. -/
def c7Request : LeaveRequest :=
  ⟨⟨"12345", "James", "Smith", "Finningley", "C", 3, 3⟩,
   ⟨"PARENT_001", none, none, "whatsapp"⟩,
   .fridaySupper, some (mkDT 2025 2 28 17 0), some (mkDT 2025 2 28 21 0)⟩

/-- C7 witness: the restriction ending Friday 2025-02-28 17:00 blocks the supper
request starting Friday 2025-02-28 17:00. -/
theorem c7_restriction_inclusive_witness :
    processLeaveEligibility c7Store c7Request =
      some (rejectLeave c7Request (restrictedReason c7Request.student),
        [Effect.dateValidity, Effect.restrictionCheck]) :=
  (c7_restriction_inclusive c7Store c7Request (mkDT 2025 2 28 17 0) (mkDT 2025 2 28 21 0)
    ⟨mkDT 2025 2 21 0 0, mkDT 2025 2 28 17 0, "Team detention"⟩
    rfl rfl (Or.inr rfl) (by decide) (by decide) (by decide) (by decide) (by decide)
    (by decide)).2

/-! ## Claim C8 -/

lemma data_append_ne_nil (s t : String) (h : s.data ≠ []) : (s ++ t).data ≠ [] := by
  rw [String.data_append]
  intro hc
  exact h (List.append_eq_nil.mp hc).1

lemma rejectMessage_ne_empty (n r : String) : rejectMessage n r ≠ "" := by
  unfold rejectMessage
  apply str_append_ne_empty
  repeat apply data_append_ne_nil
  decide

lemma specialMessage_ne_empty (n h r : String) : specialMessage n h r ≠ "" := by
  unfold specialMessage
  apply str_append_ne_empty
  repeat apply data_append_ne_nil
  decide

lemma formatApprovalMessage_ne_empty (req : LeaveRequest) (s e : DateTime)
    (bl : Option (Int × String)) : formatApprovalMessage req s e bl ≠ "" := by
  unfold formatApprovalMessage
  cases bl with
  | none =>
    apply str_append_ne_empty
    repeat apply data_append_ne_nil
    decide
  | some p =>
    apply str_append_ne_empty
    repeat apply data_append_ne_nil
    decide

lemma processLeaveEligibility_total (store : Store) (req : LeaveRequest) :
    ∃ d effs, processLeaveEligibility store req = some (d, effs) ∧
      (d.status = .approved ∨ d.status = .rejected ∨ d.status = .specialPending ∨
        d.status = .error) ∧
      d.message ≠ "" := by
  have hrej : ∀ n r, rejectMessage n r ≠ "" := rejectMessage_ne_empty
  have hspe : ∀ n h r, specialMessage n h r ≠ "" := specialMessage_ne_empty
  have happ : ∀ req s e bl, formatApprovalMessage req s e bl ≠ "" :=
    formatApprovalMessage_ne_empty
  cases hs : req.startDate with
  | none =>
    simp [processLeaveEligibility, hs]
  | some s =>
    cases he : req.endDate with
    | none =>
      simp [processLeaveEligibility, hs, he]
    | some e =>
      simp only [processLeaveEligibility, hs, he]
      by_cases hval : (toolDateValidityCheck req.student.block s e).isValid = false
      · by_cases hcl : containsSub
            (lcData (toolDateValidityCheck req.student.block s e).reason)
            (("closed weekend").toList) = true
        · have gcl : containsSub
              (lcData (toolDateValidityCheck req.student.block s e).reason)
              (['c', 'l', 'o', 's', 'e', 'd', ' ', 'w', 'e', 'e', 'k', 'e', 'n', 'd'])
              = true := hcl
          simp [hval, gcl, routeToSpecialLeave, hspe]
        · have gcl : containsSub
              (lcData (toolDateValidityCheck req.student.block s e).reason)
              (['c', 'l', 'o', 's', 'e', 'd', ' ', 'w', 'e', 'e', 'k', 'e', 'n', 'd'])
              = false := by
            simpa using hcl
          simp [hval, gcl, rejectLeave, hrej]
      · cases hl : req.leaveType with
        | overnight =>
          by_cases hsat : weekday s.day = 5
          · by_cases hrc : toolRestrictionCheck store req.student.adminNumber s e = true
            · simp [hval, hl, hsat, hrc, rejectLeave, hrej]
            · by_cases hbal : toolLeaveBalanceCheck store req.student.adminNumber
                  ("Overnight") < 1
              · simp [hval, hl, hsat, hrc, hbal, rejectLeave, hrej]
              · simp [hval, hl, hsat, hrc, hbal, approveLeave, toolLeaveUpdate, happ]
          · simp [hval, hl, hsat, routeToSpecialLeave, hspe]
        | dayLeave =>
          simp [hval, hl, approveLeave, toolLeaveUpdate, happ]
        | fridaySupper =>
          by_cases hrc : toolRestrictionCheck store req.student.adminNumber s e = true
          · simp [hval, hl, hrc, rejectLeave, hrej]
          · by_cases hbal : toolLeaveBalanceCheck store req.student.adminNumber
                ("Supper") < 1
            · simp [hval, hl, hrc, hbal, rejectLeave, hrej]
            · simp [hval, hl, hrc, hbal, approveLeave, toolLeaveUpdate, happ]
        | special =>
          simp [hval, hl, routeToSpecialLeave, hspe]

/-- C8: for every store, sender identifier, channel and parser output, the engine
returns a terminal decision (no branch raises: the one latent crash site in
`_approve_leave` is unreachable) whose status is approved, rejected, special_pending
or error, and whose message is a non-empty human-addressable string. -/
theorem c8_total_terminal_decision (store : Store) (sender channel : String)
    (parsed : ParsedData) :
    ∃ d effs, processParentRequest store sender channel parsed = some (d, effs) ∧
      (d.status = .approved ∨ d.status = .rejected ∨ d.status = .specialPending ∨
        d.status = .error) ∧
      d.message ≠ "" := by
  rcases hauth : authenticateParent store sender channel with - | parentInfo
  · have hrun : processParentRequest store sender channel parsed =
        some (⟨.rejected, some ("authentication_failed"), none,
          "I couldn't verify your identity. Please ensure you're using the registered "
            ++ "contact details on file."⟩, []) := by
      simp only [processParentRequest, hauth]
    exact ⟨_, _, hrun, by simp, by apply str_append_ne_empty; decide⟩
  · rcases hid : parsed.studentIdentifier with - | ident
    · have hrun : processParentRequest store sender channel parsed =
          some (⟨.error, some ("parse_failed"), none,
            "I couldn't identify which student this request is for. Please include the "
              ++ "student's name or admin number."⟩, []) := by
        simp only [processParentRequest, hauth, hid]
      exact ⟨_, _, hrun, by simp, by apply str_append_ne_empty; decide⟩
    · rcases hlink : toolStudentParentLinkage store parentInfo.authId ident with - | rec
      · have hrun : processParentRequest store sender channel parsed =
            some (⟨.rejected, some ("student_linkage_failed"), none,
              "I couldn't find a student matching '" ++ ident
                ++ "' linked to your account. Please check the name or admin number and "
                ++ "try again."⟩, []) := by
          simp only [processParentRequest, hauth, hid, hlink]
        refine ⟨_, _, hrun, by simp, ?_⟩
        apply str_append_ne_empty
        apply data_append_ne_nil
        apply data_append_ne_nil
        decide
      · obtain ⟨d, effs, hrun, hst, hmsg⟩ := processLeaveEligibility_total store
          ⟨⟨rec.adminNumber, rec.firstName, rec.lastName, rec.house, rec.block,
            rec.overnightBalance, rec.fridaySupperBalance⟩,
           parentInfo, parsed.leaveType, parsed.startDate, parsed.endDate⟩
        refine ⟨d, effs, ?_, hst, hmsg⟩
        simp only [processParentRequest, hauth, hid, hlink]
        exact hrun

/-! ## Claim C3 -/

/-- C3: the claim (and spec section 5) requires the balance check and deduction to
behave as one atomic decrement-if-at-least-one, keeping the stored balance ≥ 0 under
every interleaving, with exactly one of two concurrent attempts succeeding against an
initial balance of 1.  The production store's check and deduct are separate
transactions and the deduct is unconditional, so the interleaving read₁ read₂
commit₁ commit₂ from balance 1 approves both attempts and drives the stored balance
to −1 — while the fully sequential order of the same two attempts approves exactly
one and ends at 0, as the claim expects of every interleaving. -/
theorem c3_nonatomic_race :
    runSchedule [false, true, false, true] ⟨.start, .start, 1⟩ =
      ⟨.done true, .done true, -1⟩ ∧
    runSchedule [false, false, true, true] ⟨.start, .start, 1⟩ =
      ⟨.done true, .done false, 0⟩ ∧
    (runSchedule [false, true, false, true] ⟨.start, .start, 1⟩).balance < 0 := by
  decide

